import Mathlib

/-!
Verification of the automatic-db-upgrades operator against its
natural-language specification.

The Go sources are shallowly embedded below: pure helpers (tag parsing,
semver comparison, metric reduction, validation) become Lean functions over
the same data; the reconciler, whose outbound Kubernetes calls are
side-effecting, becomes a pure function of the DBUpgrade record plus an
explicit environment value holding the results of those calls, returning the
reconcileResult structure the Go code computes together with the list of
mutating actions (job create / delete) it issues.

Sources embedded:
- api/v1alpha1/dbupgrade_types.go (data model)
- api/v1alpha1/dbupgrade_webhook.go (admission validation)
- internal/checks/version.go (tag extraction, pod version gate)
- internal/checks/metrics.go (reduce / threshold logic)
- controllers/dbupgrade_controller.go (reconciler, status writer)

Numeric modelling: Kubernetes resource quantities and the float64 metric
values are modelled as exact rationals (none of the verified properties
depends on IEEE-754 rounding); timestamps and durations are integer seconds;
Go int32/int64 fields are Int (no overflow occurs in any verified property).
-/

namespace DBU

/-- A reference to a key of a named secret (corev1.SecretKeySelector; only
the name and key fields are used by the repository). -/
structure SecretRef where
  name : String
  key : String
deriving DecidableEq, Repr

/-- MigrationsSpec from dbupgrade_types.go. -/
structure MigrationsSpec where
  image : String
  dir : String
deriving DecidableEq, Repr

/-- DatabaseType enumeration from dbupgrade_types.go. -/
inductive DatabaseType
  | selfHosted
  | awsRds
  | awsAurora
deriving DecidableEq, Repr

/-- The string value of a DatabaseType, as used in error messages. -/
def DatabaseType.str : DatabaseType → String
  | .selfHosted => "selfHosted"
  | .awsRds => "awsRds"
  | .awsAurora => "awsAurora"

/-- AWSSpec from dbupgrade_types.go. -/
structure AWSSpec where
  roleArn : String
  region : String
  host : String
  port : Int
  dbName : String
  username : String
deriving DecidableEq, Repr

/-- DatabaseSpec from dbupgrade_types.go. The connection field models the Go
pointer chain Connection (outer Option) and Connection.URLSecretRef (inner
Option): ConnectionSpec has URLSecretRef as its only field. -/
structure DatabaseSpec where
  type : DatabaseType
  connection : Option (Option SecretRef)
  aws : Option AWSSpec
deriving DecidableEq, Repr

/-- MetricTarget from dbupgrade_types.go. The pods / object / external
payloads carry no data consulted by the validator, so presence is modelled
with Option Unit. -/
structure MetricTarget where
  type : String
  pods : Option Unit
  object : Option Unit
  external : Option Unit
deriving DecidableEq, Repr

/-- ThresholdSpec from dbupgrade_types.go; the Quantity value is modelled as
an exact rational (Quantity.IsZero is value = 0). -/
structure ThresholdSpec where
  operator : String
  value : Rat
deriving DecidableEq, Repr

/-- MetricCheck from dbupgrade_types.go. -/
structure MetricCheck where
  name : String
  source : String
  metricName : String
  target : MetricTarget
  threshold : ThresholdSpec
  reduce : String
  bakeSeconds : Int
  intervalSeconds : Int
deriving DecidableEq, Repr

/-- MinPodVersionCheck from dbupgrade_types.go; the selector is the
matchLabels map. -/
structure MinPodVersionCheck where
  selector : List (String × String)
  minVersion : String
  containerName : String
  strictMode : Option Bool
  disallowDowngrade : Bool
deriving DecidableEq, Repr

/-- PreChecksSpec from dbupgrade_types.go. -/
structure PreChecksSpec where
  minPodVersions : List MinPodVersionCheck
  metrics : List MetricCheck
deriving DecidableEq, Repr

/-- PostChecksSpec from dbupgrade_types.go. -/
structure PostChecksSpec where
  metrics : List MetricCheck
deriving DecidableEq, Repr

/-- ChecksSpec from dbupgrade_types.go. -/
structure ChecksSpec where
  pre : PreChecksSpec
  post : PostChecksSpec
deriving DecidableEq, Repr

/-- RunnerSpec from dbupgrade_types.go. -/
structure RunnerSpec where
  activeDeadlineSeconds : Option Int
deriving DecidableEq, Repr

/-- DBUpgradeSpec from dbupgrade_types.go. -/
structure DBUpgradeSpec where
  migrations : MigrationsSpec
  database : DatabaseSpec
  checks : Option ChecksSpec
  runner : Option RunnerSpec
deriving DecidableEq, Repr

/-- metav1.Condition as stored in DBUpgradeStatus.Conditions; the transition
time is an integer timestamp. -/
structure Condition where
  type : String
  status : String
  reason : String
  message : String
  observedGeneration : Int
  lastTransitionTime : Int
deriving DecidableEq, Repr

/-- DBUpgradeStatus from dbupgrade_types.go. -/
structure DBUpgradeStatus where
  observedGeneration : Int
  jobCompletedAt : Option Int
  conditions : List Condition
deriving DecidableEq, Repr

/-- The DBUpgrade record: the metadata fields consulted by the embedded code
are the name and the generation. -/
structure DBUpgrade where
  name : String
  generation : Int
  spec : DBUpgradeSpec
  status : DBUpgradeStatus
deriving DecidableEq, Repr

/-! ## Semver parsing and comparison

Model of the Masterminds semver v3 library as used by the repository:
NewVersion (lenient: 1 to 3 numeric core parts, optional leading v,
optional prerelease and build metadata) and version precedence. -/

/-- Split a character list at the first occurrence of c (none if absent). -/
def splitFirst (c : Char) : List Char → Option (List Char × List Char)
  | [] => none
  | x :: xs =>
    if x = c then some ([], xs)
    else
      match splitFirst c xs with
      | some (a, b) => some (x :: a, b)
      | none => none

/-- Split a string at the first occurrence of c (none if absent). -/
def splitFirstChar (c : Char) (s : String) : Option (String × String) :=
  match splitFirst c s.data with
  | some (a, b) => some (⟨a⟩, ⟨b⟩)
  | none => none

/-- Split a character list at every occurrence of a separator; mirrors
String.splitOn for a one-character separator. -/
def splitOnChar (c : Char) : List Char → List (List Char)
  | [] => [[]]
  | x :: xs =>
    if x = c then [] :: splitOnChar c xs
    else
      match splitOnChar c xs with
      | [] => [[x]]
      | h :: t => (x :: h) :: t

/-- String.splitOn for a one-character separator. -/
def splitOnCharS (c : Char) (s : String) : List String :=
  (splitOnChar c s.data).map (fun l => ⟨l⟩)

/-- Parse a nonempty all-digit string as a natural number. -/
def parseDigits (cs : List Char) : Option Nat :=
  if cs = [] then none
  else if cs.all Char.isDigit then
    some (cs.foldl (fun n ch => n * 10 + (ch.toNat - 48)) 0)
  else none

/-- Parse a nonempty all-digit string as a natural number. -/
def parseDigitsS (s : String) : Option Nat :=
  parseDigits s.data

/-- Drop one leading v from a character list. -/
def dropLeadingV (s : String) : String :=
  match s.data with
  | 'v' :: rest => ⟨rest⟩
  | _ => s

/-- A parsed semantic version: numeric core, prerelease and build metadata. -/
structure Semver where
  major : Nat
  minor : Nat
  patch : Nat
  pre : String
  buildMeta : String
deriving DecidableEq, Repr

/-- One prerelease or metadata identifier: nonempty, alphanumerics and
hyphens only. -/
def validIdentChars (s : String) : Bool :=
  s ≠ "" && s.data.all (fun ch => ch.isAlphanum || ch = '-')

/-- Masterminds validatePrerelease: dot-separated identifiers; a purely
numeric identifier must not have a leading zero. -/
def validatePrerelease (s : String) : Bool :=
  (splitOnCharS '.' s).all (fun part =>
    validIdentChars part &&
      !(part.data.all Char.isDigit && part.length > 1 && part.data.head? = some '0'))

/-- Masterminds validateMetadata: dot-separated nonempty identifiers. -/
def validateMetadata (s : String) : Bool :=
  (splitOnCharS '.' s).all validIdentChars

/-- Parse the numeric core (1 to 3 dot-separated digit runs). -/
def semverParseCore (core pre bmeta : String) : Option Semver :=
  match splitOnCharS '.' core with
  | [a] =>
    match parseDigitsS a with
    | some x => some ⟨x, 0, 0, pre, bmeta⟩
    | none => none
  | [a, b] =>
    match parseDigitsS a, parseDigitsS b with
    | some x, some y => some ⟨x, y, 0, pre, bmeta⟩
    | _, _ => none
  | [a, b, c] =>
    match parseDigitsS a, parseDigitsS b, parseDigitsS c with
    | some x, some y, some z => some ⟨x, y, z, pre, bmeta⟩
    | _, _, _ => none
  | _ => none

/-- Split off the prerelease (first hyphen) and parse. -/
def semverParseRest (s bmeta : String) : Option Semver :=
  match splitFirstChar '-' s with
  | some (core, pre) =>
    if validatePrerelease pre then semverParseCore core pre bmeta else none
  | none => semverParseCore s "" bmeta

/-- semver.NewVersion: optional leading v, numeric core of 1 to 3 parts,
optional -prerelease and +metadata. -/
def semverNewVersion (s : String) : Option Semver :=
  let s := dropLeadingV s
  match splitOnCharS '+' s with
  | [rest] => semverParseRest rest ""
  | [rest, m] => if validateMetadata m then semverParseRest rest m else none
  | _ => none

/-- Compare one prerelease identifier pair: numeric identifiers compare
numerically and sort below alphanumeric ones; otherwise ASCII order. -/
def comparePrePart (a b : String) : Ordering :=
  if a = b then .eq
  else
    match parseDigitsS a, parseDigitsS b with
    | some x, some y => compare x y
    | some _, none => .lt
    | none, some _ => .gt
    | none, none => compare a b

/-- Compare prerelease identifier lists; a strict prefix sorts first. -/
def comparePreParts : List String → List String → Ordering
  | [], [] => .eq
  | [], _ :: _ => .lt
  | _ :: _, [] => .gt
  | a :: as, b :: bs =>
    match comparePrePart a b with
    | .eq => comparePreParts as bs
    | o => o

/-- Semver precedence: numeric core, then prerelease (absence sorts last);
build metadata is ignored. -/
def semverCompare (v w : Semver) : Ordering :=
  match compare v.major w.major with
  | .eq =>
    match compare v.minor w.minor with
    | .eq =>
      match compare v.patch w.patch with
      | .eq =>
        match v.pre == "", w.pre == "" with
        | true, true => .eq
        | true, false => .gt
        | false, true => .lt
        | false, false => comparePreParts (splitOnCharS '.' v.pre) (splitOnCharS '.' w.pre)
      | o => o
    | o => o
  | o => o

/-- Version.LessThan. -/
def semverLessThan (v w : Semver) : Bool :=
  semverCompare v w = .lt

/-- strings.TrimPrefix with the single character v. -/
def trimV (s : String) : String :=
  dropLeadingV s

/-! ## Image tag extraction (internal/checks/version.go) -/

/-- Index of the last occurrence of c, scanning with a running best
(-1 when absent), as strings.LastIndex. -/
def lastIdxAux (c : Char) : List Char → Int → Int → Int
  | [], _, best => best
  | x :: xs, i, best => lastIdxAux c xs (i + 1) (if x = c then i else best)

/-- strings.LastIndex for a single character. -/
def lastIdx (c : Char) (cs : List Char) : Int :=
  lastIdxAux c cs 0 (-1)

/-- One word-or-dot character of the regex character class. -/
def isWordDotChar (c : Char) : Bool :=
  c.isAlphanum || c = '_' || c = '.'

/-- Match a digits-dot-digits-dot-digits core at the front; returns the
consumed characters and the remainder. -/
def matchCore (cs : List Char) : Option (List Char × List Char) :=
  let (d1, r1) := cs.span Char.isDigit
  if d1 = [] then none
  else
    match r1 with
    | '.' :: r2 =>
      let (d2, r3) := r2.span Char.isDigit
      if d2 = [] then none
      else
        match r3 with
        | '.' :: r4 =>
          let (d3, r5) := r4.span Char.isDigit
          if d3 = [] then none
          else some (d1 ++ '.' :: d2 ++ '.' :: d3, r5)
        | _ => none
    | _ => none

/-- Match an optional lead-character-plus-word-run segment at the front
(the optional prerelease / metadata groups of the regex); consumes nothing
when the group does not match. -/
def matchOptSeg (lead : Char) (cs : List Char) : List Char × List Char :=
  match cs with
  | c :: rest =>
    if c = lead then
      let (w, r) := rest.span isWordDotChar
      if w = [] then ([], cs) else (lead :: w, r)
    else ([], cs)
  | [] => ([], cs)

/-- The anchored regex of extractVersionFromImage: optional v, three numeric
components, optional -prerelease and +metadata word runs. Returns the full
match (index 0 of FindStringSubmatch), including the leading v. -/
def semverMatchFront (cs : List Char) : Option (List Char) :=
  let (vp, afterV) :=
    match cs with
    | 'v' :: r => (['v'], r)
    | _ => (([] : List Char), cs)
  match matchCore afterV with
  | none => none
  | some (core, rest1) =>
    let (preSeg, rest2) := matchOptSeg '-' rest1
    let (metaSeg, _) := matchOptSeg '+' rest2
    some (vp ++ core ++ preSeg ++ metaSeg)

/-- The capture group (index 1) of the same regex: the full match without
the optional leading v. -/
def semverMatchCapture (cs : List Char) : Option (List Char) :=
  let afterV :=
    match cs with
    | 'v' :: r => r
    | _ => cs
  match matchCore afterV with
  | none => none
  | some (core, rest1) =>
    let (preSeg, rest2) := matchOptSeg '-' rest1
    let (metaSeg, _) := matchOptSeg '+' rest2
    some (core ++ preSeg ++ metaSeg)

/-- extractVersionFromImage from internal/checks/version.go. -/
def extractVersionFromImage (image : String) : String :=
  let image :=
    match splitFirstChar '@' image with
    | some (before, _) => before
    | none => image
  let lastSlash := lastIdx '/' image.data
  let tagStart := lastIdx ':' image.data
  if tagStart = -1 ∨ tagStart < lastSlash then ""
  else
    let tag : String := ⟨image.data.drop (tagStart + 1).toNat⟩
    if tag = "latest" ∨ tag = "" then ""
    else
      match semverMatchFront tag.data with
      | some consumed => ⟨consumed⟩
      | none =>
        match tag.data with
        | c :: _ => if c.isDigit then tag else ""
        | [] => ""

/-! Spec-side statement of the five-step tag parsing policy, written from
the specification text (section 4.2), for comparison with the source
function. Step 4 in the policy below returns the full regex match; the
variant tagPolicyCaptured returns the capture group exactly as the
specification words it. -/

/-- Step 1 of the tag policy: strip any digest suffix. -/
def stripDigest (s : String) : String :=
  match splitFirstChar '@' s with
  | some (before, _) => before
  | none => s

/-- Step 2 of the tag policy: the tag after the last colon that follows the
last slash; none when no such colon exists. -/
def tagAfterColon (s : String) : Option String :=
  let lastSlash := lastIdx '/' s.data
  let tagStart := lastIdx ':' s.data
  if tagStart = -1 ∨ tagStart < lastSlash then none
  else some ⟨s.data.drop (tagStart + 1).toNat⟩

/-- Steps 3 to 5 of the tag policy applied to an extracted tag, with step 4
returning the full regex match. -/
def tagPolicySteps (tag : String) : String :=
  if tag = "latest" ∨ tag = "" then ""
  else
    match semverMatchFront tag.data with
    | some m => ⟨m⟩
    | none =>
      match tag.data with
      | c :: _ => if c.isDigit then tag else ""
      | [] => ""

/-- The five-step tag parsing policy of the specification, amended so that
step 4 returns the full regex match (including any leading v). -/
def tagPolicy (image : String) : String :=
  match tagAfterColon (stripDigest image) with
  | none => ""
  | some tag => tagPolicySteps tag

/-- Steps 3 to 5 with step 4 returning the capture group, exactly as the
specification words step 4 (return the captured version). -/
def tagPolicyCapturedSteps (tag : String) : String :=
  if tag = "latest" ∨ tag = "" then ""
  else
    match semverMatchCapture tag.data with
    | some m => ⟨m⟩
    | none =>
      match tag.data with
      | c :: _ => if c.isDigit then tag else ""
      | [] => ""

/-- The five-step policy as literally worded by the specification: step 4
returns the captured version (without the leading v). -/
def tagPolicyCaptured (image : String) : String :=
  match tagAfterColon (stripDigest image) with
  | none => ""
  | some tag => tagPolicyCapturedSteps tag

/-! ## Admission webhook (api/v1alpha1/dbupgrade_webhook.go) -/

/-- validateDatabase from dbupgrade_webhook.go. -/
def validateDatabase (r : DBUpgrade) : Option String :=
  let dbType := r.spec.database.type
  let hasAWS := r.spec.database.aws.isSome
  let hasConnection := r.spec.database.connection.isSome
  let switchErr : Option String :=
    match dbType with
    | .awsRds | .awsAurora =>
      if !hasAWS && !hasConnection then
        some ("database.type=" ++ dbType.str ++ " requires either aws or connection to be set")
      else
        match r.spec.database.aws with
        | some aws =>
          if aws.roleArn = "" then some "database.aws.roleArn is required when aws is specified"
          else if aws.region = "" then some "database.aws.region is required when aws is specified"
          else if aws.host = "" then some "database.aws.host is required when aws is specified"
          else if aws.dbName = "" then some "database.aws.dbName is required when aws is specified"
          else if aws.username = "" then some "database.aws.username is required when aws is specified"
          else none
        | none => none
    | .selfHosted =>
      if !hasConnection then some "database.type=selfHosted requires connection to be set"
      else if hasAWS then some "database.aws should not be set for selfHosted type"
      else none
  match switchErr with
  | some e => some e
  | none =>
    match r.spec.database.connection with
    | none => none
    | some urlSecretRef =>
      match urlSecretRef with
      | none => some "database.connection.urlSecretRef is required when connection is specified"
      | some ref =>
        if ref.name = "" then some "database.connection.urlSecretRef.name cannot be empty"
        else if ref.key = "" then some "database.connection.urlSecretRef.key cannot be empty"
        else none

/-- validateMinPodVersions from dbupgrade_webhook.go: each minVersion must
parse as semver after trimming a leading v. -/
def validateMinPodVersionsAux (i : Nat) : List MinPodVersionCheck → Option String
  | [] => none
  | check :: rest =>
    match semverNewVersion (trimV check.minVersion) with
    | none =>
      some ("checks.pre.minPodVersions[" ++ toString i ++ "].minVersion \""
        ++ check.minVersion ++ "\" is not valid semver")
    | some _ => validateMinPodVersionsAux (i + 1) rest

/-- validateMinPodVersions over the pre-check list. -/
def validateMinPodVersions (c : ChecksSpec) : Option String :=
  validateMinPodVersionsAux 0 c.pre.minPodVersions

/-- validateMetricCheck from dbupgrade_webhook.go: the target binding must
match the target type, and the threshold value must be non-zero. -/
def validateMetricCheck (m : MetricCheck) : Option String :=
  let targetErr : Option String :=
    if m.target.type = "Pods" then
      if m.target.pods.isNone then some "target.type=Pods requires target.pods to be set"
      else if m.target.object.isSome then some "target.type=Pods should not have target.object set"
      else if m.target.external.isSome then some "target.type=Pods should not have target.external set"
      else none
    else if m.target.type = "Object" then
      if m.target.object.isNone then some "target.type=Object requires target.object to be set"
      else if m.target.pods.isSome then some "target.type=Object should not have target.pods set"
      else if m.target.external.isSome then some "target.type=Object should not have target.external set"
      else none
    else if m.target.type = "External" then
      if m.target.pods.isSome then some "target.type=External should not have target.pods set"
      else if m.target.object.isSome then some "target.type=External should not have target.object set"
      else none
    else none
  match targetErr with
  | some e => some e
  | none =>
    if m.threshold.value = 0 then some "threshold.value cannot be empty" else none

/-- The first failing metric of a list, with its error wrapped in the
pre-check or post-check tag as in validateMetrics. -/
def firstMetricErr (tag : String) : List MetricCheck → Option String
  | [] => none
  | m :: rest =>
    match validateMetricCheck m with
    | some e => some (tag ++ " metric \"" ++ m.name ++ "\": " ++ e)
    | none => firstMetricErr tag rest

/-- validateMetrics from dbupgrade_webhook.go: pre-check metrics first, then
post-check metrics; no uniqueness check on names is performed. -/
def validateMetrics (c : ChecksSpec) : Option String :=
  match firstMetricErr "pre-check" c.pre.metrics with
  | some e => some e
  | none => firstMetricErr "post-check" c.post.metrics

/-- validateDBUpgrade from dbupgrade_webhook.go: collect database, min pod
version and metric errors. -/
def validateDBUpgrade (r : DBUpgrade) : Option String :=
  let allErrs :=
    (match validateDatabase r with | some e => [e] | none => []) ++
    (match r.spec.checks with
     | none => []
     | some c =>
       (match validateMinPodVersions c with | some e => [e] | none => []) ++
       (match validateMetrics c with | some e => [e] | none => []))
  if allErrs = [] then none
  else some ("validation failed: " ++ String.intercalate "; " allErrs)

/-- The error text of validateNotProgressing. -/
def progressingRejectionMsg : String :=
  "cannot update spec while migration is in progress (Progressing=True); wait for current migration to complete"

/-- validateNotProgressing from dbupgrade_webhook.go: the guard passes when
the submitted spec deep-equals the old spec; otherwise it rejects whenever
the old status has a Progressing condition with status True. -/
def validateNotProgressing (r old : DBUpgrade) : Option String :=
  if old.spec = r.spec then none
  else if old.status.conditions.any (fun c => c.type == "Progressing" && c.status == "True") then
    some progressingRejectionMsg
  else none

/-- validateImmutableFields from dbupgrade_webhook.go. -/
def validateImmutableFields (r old : DBUpgrade) : Option String :=
  if r.spec.database.type ≠ old.spec.database.type then
    some ("database.type is immutable (cannot change from " ++ old.spec.database.type.str
      ++ " to " ++ r.spec.database.type.str ++ ")")
  else if (old.spec.database.connection.join).isSome ≠ (r.spec.database.connection.join).isSome then
    some "database.connection cannot be added or removed after creation"
  else
    let connErr : Option String :=
      match old.spec.database.connection.join, r.spec.database.connection.join with
      | some oldRef, some newRef =>
        if oldRef.name ≠ newRef.name ∨ oldRef.key ≠ newRef.key then
          some ("database.connection.urlSecretRef is immutable (cannot change from "
            ++ oldRef.name ++ "/" ++ oldRef.key ++ " to " ++ newRef.name ++ "/" ++ newRef.key ++ ")")
        else none
      | _, _ => none
    match connErr with
    | some e => some e
    | none =>
      if old.spec.database.aws.isSome ≠ r.spec.database.aws.isSome then
        some "database.aws cannot be added or removed after creation"
      else
        match old.spec.database.aws, r.spec.database.aws with
        | some oldAWS, some newAWS =>
          if oldAWS.roleArn ≠ newAWS.roleArn then some "database.aws.roleArn is immutable"
          else if oldAWS.region ≠ newAWS.region then some "database.aws.region is immutable"
          else if oldAWS.host ≠ newAWS.host then some "database.aws.host is immutable"
          else if oldAWS.port ≠ newAWS.port then some "database.aws.port is immutable"
          else if oldAWS.dbName ≠ newAWS.dbName then some "database.aws.dbName is immutable"
          else if oldAWS.username ≠ newAWS.username then some "database.aws.username is immutable"
          else none
        | _, _ => none

/-- ValidateCreate from dbupgrade_webhook.go. -/
def ValidateCreate (r : DBUpgrade) : Option String :=
  validateDBUpgrade r

/-- ValidateUpdate from dbupgrade_webhook.go: progressing guard first, then
immutability, then the structural validation of the new record. -/
def ValidateUpdate (r old : DBUpgrade) : Option String :=
  match validateNotProgressing r old with
  | some e => some e
  | none =>
    match validateImmutableFields r old with
    | some e => some e
    | none => validateDBUpgrade r

/-! ## Metric checker (internal/checks/metrics.go)

Metric values arrive as resource quantities (milli-value divided by 1000);
they and the threshold are modelled as exact rationals. -/

/-- MetricCheckResult from metrics.go. -/
structure MetricCheckResult where
  passed : Bool
  message : String
  values : List Rat := []
  reducedValue : Rat := 0
  thresholdValue : Rat := 0
deriving DecidableEq, Repr

/-- reduceValues from metrics.go: 0 on an empty list; Min, Sum and Avg as
named; Max for the Max value, the empty string, and any other value (the
default branch of the switch computes the same maximum loop). -/
def reduceValues (values : List Rat) (reduce : String) : Rat :=
  match values with
  | [] => 0
  | v :: vs =>
    if reduce = "Min" then vs.foldl (fun mn x => if x < mn then x else mn) v
    else if reduce = "Sum" then (v :: vs).foldl (· + ·) 0
    else if reduce = "Avg" then ((v :: vs).foldl (· + ·) 0) / ((v :: vs).length : Rat)
    else vs.foldl (fun mx x => if x > mx then x else mx) v

/-- compareThreshold from metrics.go: the four operators, false otherwise. -/
def compareThreshold (value threshold : Rat) (operator : String) : Bool :=
  if operator = ">" then decide (value > threshold)
  else if operator = ">=" then decide (value ≥ threshold)
  else if operator = "<" then decide (value < threshold)
  else if operator = "<=" then decide (value ≤ threshold)
  else false

/-- The decision part of checkSingleMetric from metrics.go, applied to the
values returned by the metrics API: empty value list fails; otherwise the
reduced value is compared against the threshold. -/
def checkSingleMetricResult (check : MetricCheck) (values : List Rat) : MetricCheckResult :=
  if values = [] then
    { passed := false, message := "No metric values found for " ++ check.metricName }
  else
    let reducedValue := reduceValues values check.reduce
    let thresholdValue := check.threshold.value
    let passed := compareThreshold reducedValue thresholdValue check.threshold.operator
    if passed = false then
      { passed := false
        message := "Metric " ++ check.metricName ++ " value does not satisfy "
          ++ check.threshold.operator ++ " threshold"
        values := values, reducedValue := reducedValue, thresholdValue := thresholdValue }
    else
      { passed := true
        message := "Metric " ++ check.metricName ++ " value satisfies "
          ++ check.threshold.operator ++ " threshold"
        values := values, reducedValue := reducedValue, thresholdValue := thresholdValue }

/-! ## Pod version checker (internal/checks/version.go) -/

/-- A container of a pod: name and image reference. -/
structure Container where
  name : String
  image : String
deriving DecidableEq, Repr

/-- A pod as consulted by the version checker: its containers and init
containers (the label selection happens through the environment). -/
structure Pod where
  name : String
  ns : String
  containers : List Container
  initContainers : List Container
deriving DecidableEq, Repr

/-- PodVersionInfo from version.go. -/
structure PodVersionInfo where
  name : String
  ns : String
  containerName : String
  imageTag : String
  version : String
deriving DecidableEq, Repr

/-- VersionCheckResult from version.go. -/
structure VersionCheckResult where
  passed : Bool
  message : String
  failedPods : List PodVersionInfo := []
deriving DecidableEq, Repr

/-- The container loop of checkSinglePodVersion: skip containers not
matching a configured container name; an empty or unparseable extracted
version records a failed pod entry and continues; a parseable version below
the minimum records a failed entry; after examining a named container the
loop breaks. -/
def scanContainers (check : MinPodVersionCheck) (minV : Semver) (pod : Pod) :
    List Container → List PodVersionInfo → List PodVersionInfo
  | [], acc => acc
  | c :: rest, acc =>
    if check.containerName ≠ "" ∧ c.name ≠ check.containerName then
      scanContainers check minV pod rest acc
    else
      let imageVersion := extractVersionFromImage c.image
      if imageVersion = "" then
        scanContainers check minV pod rest
          (acc ++ [⟨pod.name, pod.ns, c.name, c.image, "unknown"⟩])
      else
        match semverNewVersion (trimV imageVersion) with
        | none =>
          scanContainers check minV pod rest
            (acc ++ [⟨pod.name, pod.ns, c.name, c.image, imageVersion⟩])
        | some podVersion =>
          let acc2 :=
            if semverLessThan podVersion minV then
              acc ++ [⟨pod.name, pod.ns, c.name, c.image, imageVersion⟩]
            else acc
          if check.containerName ≠ "" then acc2
          else scanContainers check minV pod rest acc2

/-- checkSinglePodVersion from version.go, applied to the pods matched by
the selector: fails when no pod matches; errors when the minimum version
does not parse; otherwise scans every pod and fails when any pod was
recorded as failed. The strictMode field of the check is never consulted. -/
def checkSinglePodVersion (pods : List Pod) (check : MinPodVersionCheck) :
    Except String VersionCheckResult :=
  if pods = [] then
    .ok { passed := false, message := "No pods found matching selector" }
  else
    match semverNewVersion (trimV check.minVersion) with
    | none => .error ("invalid minimum version \"" ++ check.minVersion ++ "\"")
    | some minV =>
      let failedPods := pods.foldl
        (fun acc pod => scanContainers check minV pod (pod.containers ++ pod.initContainers) acc) []
      if failedPods ≠ [] then
        .ok { passed := false
              message := toString failedPods.length ++ " pod(s) have version below minimum "
                ++ check.minVersion
              failedPods := failedPods }
      else
        .ok { passed := true
              message := "All " ++ toString pods.length ++ " pod(s) meet minimum version "
                ++ check.minVersion }

/-- CheckMinPodVersions from version.go: first failing check wins; podsFor
supplies the selector-matched pods of each check. -/
def CheckMinPodVersions (podsFor : MinPodVersionCheck → List Pod) :
    List MinPodVersionCheck → Except String VersionCheckResult
  | [] => .ok { passed := true, message := "All pod version checks passed" }
  | check :: rest =>
    match checkSinglePodVersion (podsFor check) check with
    | .error e => .error e
    | .ok r => if r.passed = false then .ok r else CheckMinPodVersions podsFor rest

/-! ## Condition reason constants

ReasonInitializing appears in the conditions.go under src; the remaining
constants belong to the conditions.go revision used by the final controller,
which is not under src. Modelled from the spec: the reason code table of the
error handling design, with the names attested by the DBUpgradeStatus
documentation in dbupgrade_types.go (Initializing, JobFailed,
PreCheckImageVersionFailed, PreCheckMetricFailed, PostCheckFailed,
SecretNotFound, AWSNotSupported). -/

def ReasonInitializing : String := "Initializing"
def ReasonSecretNotFound : String := "SecretNotFound"
def ReasonAWSNotSupported : String := "AWSNotSupported"
def ReasonMigrationInProgress : String := "MigrationInProgress"
def ReasonJobPending : String := "JobPending"
def ReasonJobFailed : String := "JobFailed"
def ReasonMigrationComplete : String := "MigrationComplete"
def ReasonPreCheckImageVersionFailed : String := "PreCheckImageVersionFailed"
def ReasonPreCheckMetricFailed : String := "PreCheckMetricFailed"
def ReasonPostCheckBakeTimeWaiting : String := "PostCheckBakeTimeWaiting"
def ReasonPostCheckFailed : String := "PostCheckFailed"

/-! ## Reconciler (controllers/dbupgrade_controller.go)

The reconciler is embedded as a pure function of the DBUpgrade record and an
environment carrying the results of its outbound Kubernetes and metrics API
calls during one tick, returning the reconcileResult it computes together
with the mutating actions it issues. The spec fingerprint (sha-256 of the
JSON serialization, truncated to 8 hex characters) is passed as a function
parameter. -/

/-- A batch Job condition: type and status strings. -/
structure JobCondition where
  type : String
  status : String
deriving DecidableEq, Repr

/-- The migration Job as consulted by the reconciler. -/
structure Job where
  name : String
  active : Int
  conditions : List JobCondition
  completionTime : Option Int
deriving DecidableEq, Repr

/-- isJobRunning from dbupgrade_controller.go. -/
def isJobRunning : Option Job → Bool
  | none => false
  | some j => decide (j.active > 0)

/-- isJobSucceeded from dbupgrade_controller.go. -/
def isJobSucceeded : Option Job → Bool
  | none => false
  | some j => j.conditions.any (fun c => c.type == "Complete" && c.status == "True")

/-- isJobFailed from dbupgrade_controller.go. -/
def isJobFailed : Option Job → Bool
  | none => false
  | some j => j.conditions.any (fun c => c.type == "Failed" && c.status == "True")

/-- eventInfo from dbupgrade_controller.go. -/
structure eventInfo where
  eventType : String
  reason : String
  message : String
deriving DecidableEq, Repr

/-- reconcileResult from dbupgrade_controller.go; the defaults are the Go
zero values, so literals that omit fields mirror the Go literals. The
requeue delay is in seconds. -/
structure reconcileResult where
  ready : Bool := false
  readyReason : String := ""
  readyMessage : String := ""
  progressing : Bool := false
  progressReason : String := ""
  progressMessage : String := ""
  requeueAfter : Int := 0
  event : Option eventInfo := none
  jobCompletedAt : Option Int := none
deriving DecidableEq, Repr

/-- The outcome of the createMigrationJob call. -/
inductive CreateJobOutcome
  | ok
  | alreadyExists
  | otherError (msg : String)
deriving DecidableEq, Repr

/-- The cluster-supplied environment of one reconcile tick: results of the
outbound calls made by reconcileDBUpgrade, in particular the customer
connection secret content, the operator secret write outcome, the Job owned
by the record, and the metric query results of the postchecks. -/
structure ReconcileEnv where
  secretKeys : Option (List String) := some []
  ensureSecretErr : Option String := none
  getJobErr : Option String := none
  existingJob : Option Job := none
  deleteJobErr : Bool := false
  createJob : CreateJobOutcome := .ok
  preCheckResult : reconcileResult := { ready := true }
  restConfig : Bool := true
  newCheckerErr : Option String := none
  checkMetrics : Except String (Bool × String) := .ok (true, "")
  now : Int := 0
deriving Repr

/-- A mutating action issued by the reconciler during the tick. -/
inductive KAction
  | deleteJobBackground (name : String)
  | createJob (name : String)
deriving DecidableEq, Repr

/-- validateSecret from dbupgrade_controller.go: non selfHosted records pass
immediately; selfHosted records need the connection reference and the
referenced secret key present. -/
def validateSecret (db : DBUpgrade) (env : ReconcileEnv) : Option String :=
  if db.spec.database.type ≠ .selfHosted then none
  else
    match db.spec.database.connection.join with
    | none => some "database.connection.urlSecretRef is required for selfHosted database"
    | some ref =>
      match env.secretKeys with
      | none => some ("secret \"" ++ ref.name ++ "\" not found in namespace")
      | some keys =>
        if ref.key ∈ keys then none
        else some ("key \"" ++ ref.key ++ "\" not found in secret \"" ++ ref.name ++ "\"")

/-- The blocked outcome returned for an AWS record without an aws bundle. -/
def awsConfigMissingResult : reconcileResult :=
  { ready := false
    readyReason := ReasonAWSNotSupported
    readyMessage := "database.aws configuration is required for AWS RDS/Aurora"
    progressing := false
    progressReason := ReasonAWSNotSupported
    progressMessage := "Missing AWS configuration" }

/-- The outcome for a failed customer secret validation. -/
def secretNotFoundResult (e : String) : reconcileResult :=
  { ready := false, readyReason := ReasonSecretNotFound, readyMessage := e
    progressing := false, progressReason := ReasonSecretNotFound, progressMessage := e
    requeueAfter := 30
    event := some ⟨"Warning", "SecretNotFound", e⟩ }

/-- The outcome for a failed operator secret write. -/
def ensureSecretFailedResult (e : String) : reconcileResult :=
  { ready := false, readyReason := ReasonSecretNotFound
    readyMessage := "Failed to create migration secret"
    progressing := false, progressReason := ReasonSecretNotFound, progressMessage := e
    requeueAfter := 10 }

/-- The outcome for a failed Job lookup. -/
def getJobErrorResult (e : String) : reconcileResult :=
  { ready := false, readyReason := ReasonInitializing
    readyMessage := "Error checking for existing Job"
    progressing := false, progressReason := ReasonInitializing, progressMessage := e
    requeueAfter := 5 }

/-- The outcome when the spec changed but the existing Job is still live:
the Job is left untouched. -/
def migrationRunningWaitResult : reconcileResult :=
  { ready := false, readyReason := ReasonInitializing
    readyMessage := "Waiting for current migration to complete"
    progressing := true, progressReason := ReasonMigrationInProgress
    progressMessage := "Cannot apply new spec while migration is running"
    requeueAfter := 10 }

/-- The outcome when deleting the stale Job failed. -/
def staleJobDeleteFailResult : reconcileResult :=
  { ready := false, readyReason := ReasonInitializing
    readyMessage := "Cleaning up stale Job"
    progressing := false, progressReason := ReasonInitializing
    progressMessage := "Deleting Job from previous spec"
    requeueAfter := 5 }

/-- The outcome after deleting the stale Job: requeue shortly and emit the
SpecChanged event. -/
def specChangedResult : reconcileResult :=
  { ready := false, readyReason := ReasonInitializing
    readyMessage := "Spec changed, preparing new migration"
    progressing := false, progressReason := ReasonInitializing
    progressMessage := "Deleted old Job, will create new one"
    requeueAfter := 2
    event := some ⟨"Normal", "SpecChanged", "Spec changed, starting new migration"⟩ }

/-- The outcome when Job creation raced with an AlreadyExists error. -/
def jobCreationRaceResult : reconcileResult :=
  { ready := false, readyReason := ReasonInitializing
    readyMessage := "Job creation in progress"
    progressing := true, progressReason := ReasonJobPending
    progressMessage := "Migration Job being created"
    requeueAfter := 2 }

/-- The outcome when Job creation failed for another reason. -/
def jobCreateFailedResult (e : String) : reconcileResult :=
  { ready := false, readyReason := ReasonJobFailed
    readyMessage := "Failed to create migration Job"
    progressing := false, progressReason := ReasonJobFailed, progressMessage := e
    requeueAfter := 30 }

/-- The outcome after successfully creating the migration Job. -/
def migrationStartedResult (jobName : String) : reconcileResult :=
  { ready := false, readyReason := ReasonInitializing
    readyMessage := "Migration Job created"
    progressing := true, progressReason := ReasonJobPending
    progressMessage := "Created Job " ++ jobName
    requeueAfter := 5
    event := some ⟨"Normal", "MigrationStarted", "Created migration Job " ++ jobName⟩ }

/-- The outcome of syncJobStatus when no Job exists. -/
def noJobResult : reconcileResult :=
  { ready := false, readyReason := ReasonInitializing
    readyMessage := "No migration Job exists"
    progressing := false, progressReason := ReasonInitializing
    progressMessage := "Waiting for Job creation" }

/-- The terminal success outcome. -/
def migrationCompleteResult (jobName : String) (completedAt : Int) : reconcileResult :=
  { ready := true, readyReason := ReasonMigrationComplete
    readyMessage := "Database migration completed successfully"
    progressing := false, progressReason := ReasonMigrationComplete
    progressMessage := "Job " ++ jobName ++ " completed"
    jobCompletedAt := some completedAt
    event := some ⟨"Normal", "MigrationSucceeded", "Database migration completed successfully"⟩ }

/-- The terminal failure outcome. -/
def jobFailedResult (jobName : String) : reconcileResult :=
  { ready := false, readyReason := ReasonJobFailed
    readyMessage := "Migration Job failed"
    progressing := false, progressReason := ReasonJobFailed
    progressMessage := "Job " ++ jobName ++ " failed"
    event := some ⟨"Warning", "MigrationFailed", "Database migration failed"⟩ }

/-- The outcome while the Job is running. -/
def jobRunningResult (jobName : String) : reconcileResult :=
  { ready := false, readyReason := ReasonInitializing
    readyMessage := "Migration in progress"
    progressing := true, progressReason := ReasonMigrationInProgress
    progressMessage := "Job " ++ jobName ++ " is running"
    requeueAfter := 10 }

/-- The outcome while the Job is pending. -/
def jobPendingResult (jobName : String) : reconcileResult :=
  { ready := false, readyReason := ReasonInitializing
    readyMessage := "Migration Job pending"
    progressing := true, progressReason := ReasonJobPending
    progressMessage := "Job " ++ jobName ++ " is pending"
    requeueAfter := 5 }

/-- Whether the record carries post-check metrics. -/
def hasPostMetrics (db : DBUpgrade) : Bool :=
  match db.spec.checks with
  | some c => c.post.metrics ≠ []
  | none => false

/-- The list of post-check metrics of a record. -/
def postMetricsList (db : DBUpgrade) : List MetricCheck :=
  match db.spec.checks with
  | some c => c.post.metrics
  | none => []

/-- The maximum bakeSeconds loop of runPostChecks: starts at 0 and takes
every strictly larger value. -/
def maxBakeSeconds (db : DBUpgrade) : Int :=
  (postMetricsList db).foldl (fun mx check => if check.bakeSeconds > mx then check.bakeSeconds else mx) 0

/-- The bake waiting outcome of runPostChecks. -/
def bakeWaitingResult (elapsed mx : Int) : reconcileResult :=
  { ready := false, readyReason := ReasonPostCheckBakeTimeWaiting
    readyMessage := "Waiting for bake time: " ++ toString (mx - elapsed) ++ "s remaining"
    progressing := true, progressReason := ReasonPostCheckBakeTimeWaiting
    progressMessage := "Bake time: " ++ toString elapsed ++ "/" ++ toString mx ++ " seconds elapsed"
    requeueAfter := mx - elapsed }

/-- The metric evaluation tail of runPostChecks, after the bake window has
elapsed: checker construction errors and metric API errors fail with a short
requeue; a failed gate fails with the PostCheckFailed event; success returns
the ready outcome. -/
def postMetricEval (env : ReconcileEnv) : reconcileResult :=
  match env.newCheckerErr with
  | some e =>
    { ready := false, readyReason := ReasonPostCheckFailed
      readyMessage := "Failed to create metrics checker"
      progressing := false, progressReason := ReasonPostCheckFailed, progressMessage := e
      requeueAfter := 30 }
  | none =>
    match env.checkMetrics with
    | .error e =>
      { ready := false, readyReason := ReasonPostCheckFailed, readyMessage := e
        progressing := false, progressReason := ReasonPostCheckFailed
        progressMessage := "Error running metric check"
        requeueAfter := 30 }
    | .ok (passed, msg) =>
      if passed = false then
        { ready := false, readyReason := ReasonPostCheckFailed, readyMessage := msg
          progressing := false, progressReason := ReasonPostCheckFailed, progressMessage := msg
          requeueAfter := 60
          event := some ⟨"Warning", "PostCheckFailed", msg⟩ }
      else { ready := true }

/-- runPostChecks from dbupgrade_controller.go: no post metrics or no rest
config returns ready; otherwise, when the maximum bakeSeconds is positive
and the completion timestamp is known, a not-yet-elapsed bake window returns
the waiting outcome with the remaining seconds as requeue; otherwise the
metrics are evaluated. -/
def runPostChecks (db : DBUpgrade) (jobCompletedAt : Option Int) (env : ReconcileEnv) :
    reconcileResult :=
  if hasPostMetrics db = false then { ready := true }
  else if env.restConfig = false then { ready := true }
  else
    let mx := maxBakeSeconds db
    let bakeWait : Option reconcileResult :=
      match jobCompletedAt with
      | some t =>
        if mx > 0 then
          let elapsed := env.now - t
          if elapsed < mx then some (bakeWaitingResult elapsed mx) else none
        else none
      | none => none
    match bakeWait with
    | some r => r
    | none => postMetricEval env

/-- The completion timestamp captured by the succeeded branch of
syncJobStatus: the completion time of the Job when present, else the value
preserved in status, else the current moment. -/
def jobCompletedAtOf (db : DBUpgrade) (j : Job) (env : ReconcileEnv) : Int :=
  match j.completionTime with
  | some t => t
  | none =>
    match db.status.jobCompletedAt with
    | some t => t
    | none => env.now

/-- syncJobStatus from dbupgrade_controller.go: classify the Job and branch;
an unready postcheck result is returned with the captured completion
timestamp preserved in it. -/
def syncJobStatus (db : DBUpgrade) (job : Option Job) (env : ReconcileEnv) : reconcileResult :=
  match job with
  | none => noJobResult
  | some j =>
    if isJobSucceeded (some j) then
      let completedAt := jobCompletedAtOf db j env
      let postResult := runPostChecks db (some completedAt) env
      if hasPostMetrics db = true ∧ postResult.ready = false then
        { postResult with jobCompletedAt := some completedAt }
      else migrationCompleteResult j.name completedAt
    else if isJobFailed (some j) then jobFailedResult j.name
    else if isJobRunning (some j) then jobRunningResult j.name
    else jobPendingResult j.name

/-- reconcileDBUpgrade from dbupgrade_controller.go: customer secret
validation for selfHosted records, the AWS configuration gate, the operator
secret write, the fingerprint-keyed Job lookup, the spec change handling,
precheck-gated Job creation, and the Job status sync; paired with the list
of mutating actions issued. -/
def reconcileDBUpgrade (hash : DBUpgradeSpec → String) (db : DBUpgrade) (env : ReconcileEnv) :
    reconcileResult × List KAction :=
  let secretErr := if db.spec.database.type = .selfHosted then validateSecret db env else none
  match secretErr with
  | some e => (secretNotFoundResult e, [])
  | none =>
    if (db.spec.database.type = .awsRds ∨ db.spec.database.type = .awsAurora)
        ∧ db.spec.database.aws = none then
      (awsConfigMissingResult, [])
    else
      match env.ensureSecretErr with
      | some e => (ensureSecretFailedResult e, [])
      | none =>
        match env.getJobErr with
        | some e => (getJobErrorResult e, [])
        | none =>
          let currentHash := hash db.spec
          let expectedJobName := "dbupgrade-" ++ db.name ++ "-" ++ currentHash
          match env.existingJob with
          | some job =>
            if job.name ≠ expectedJobName then
              if isJobRunning (some job) then (migrationRunningWaitResult, [])
              else if env.deleteJobErr then
                (staleJobDeleteFailResult, [.deleteJobBackground job.name])
              else (specChangedResult, [.deleteJobBackground job.name])
            else (syncJobStatus db (some job) env, [])
          | none =>
            if db.spec.checks.isSome ∧ env.preCheckResult.ready = false then
              (env.preCheckResult, [])
            else
              match env.createJob with
              | .alreadyExists => (jobCreationRaceResult, [.createJob expectedJobName])
              | .otherError e => (jobCreateFailedResult e, [.createJob expectedJobName])
              | .ok => (migrationStartedResult expectedJobName, [.createJob expectedJobName])

/-! ## Status writer (controllers/dbupgrade_controller.go updateStatus)

The meta.SetStatusCondition helper of the apimachinery dependency is
modelled per its contract (also restated by the spec): the condition list is
keyed by type, a set-or-update preserves lastTransitionTime only when the
status did not flip. -/

/-- meta.SetStatusCondition: append a new condition stamped with the current
time, or update the existing condition of the same type in place, keeping
its transition time when the status is unchanged. -/
def metaSetStatusCondition (conds : List Condition) (newC : Condition) (now : Int) :
    List Condition :=
  match conds.find? (fun c => c.type == newC.type) with
  | none => conds ++ [{ newC with lastTransitionTime := now }]
  | some existing =>
    conds.map (fun c =>
      if c.type == newC.type then
        { newC with
          lastTransitionTime :=
            if existing.status == newC.status then existing.lastTransitionTime else now }
      else c)

/-- Modelled from the spec: the SetReady helper of the conditions.go
revision that is not under src writes the Ready condition from the outcome
with the observed generation. -/
def SetReady (conds : List Condition) (status : Bool) (reason message : String)
    (gen now : Int) : List Condition :=
  metaSetStatusCondition conds
    { type := "Ready", status := if status then "True" else "False"
      reason := reason, message := message, observedGeneration := gen
      lastTransitionTime := 0 } now

/-- Modelled from the spec: the SetProgressing helper of the conditions.go
revision that is not under src writes the Progressing condition from the
outcome with the observed generation. -/
def SetProgressing (conds : List Condition) (status : Bool) (reason message : String)
    (gen now : Int) : List Condition :=
  metaSetStatusCondition conds
    { type := "Progressing", status := if status then "True" else "False"
      reason := reason, message := message, observedGeneration := gen
      lastTransitionTime := 0 } now

/-- updateStatus from dbupgrade_controller.go: write the observed
generation, carry over a provided completion timestamp, rewrite the Ready
and Progressing conditions from the outcome, and issue the status update
call; the boolean records that the update call is issued, which this
function does unconditionally. -/
def updateStatus (db : DBUpgrade) (result : reconcileResult) (now : Int) :
    DBUpgradeStatus × Bool :=
  let st := { db.status with observedGeneration := db.generation }
  let st :=
    match result.jobCompletedAt with
    | some t => { st with jobCompletedAt := some t }
    | none => st
  let gen := db.generation
  let conds := SetReady st.conditions result.ready result.readyReason result.readyMessage gen now
  let conds := SetProgressing conds result.progressing result.progressReason result.progressMessage gen now
  ({ st with conditions := conds }, true)

/-! ## Concrete records used to evaluate the embedded code -/

/-- A valid selfHosted spec. -/
def selfHostedSpec : DBUpgradeSpec :=
  { migrations := ⟨"customer/migr:v1", "/migrations"⟩
    database := { type := .selfHosted, connection := some (some ⟨"db-secret", "url"⟩), aws := none }
    checks := none
    runner := none }

/-- A selfHosted DBUpgrade with an empty status. -/
def demoUpgrade : DBUpgrade :=
  { name := "demo", generation := 2, spec := selfHostedSpec
    status := { observedGeneration := 0, jobCompletedAt := none, conditions := [] } }

/-- A stand-in for computeSpecHash (sha-256 over the JSON serialization,
truncated to 8 hex characters): the concrete evaluations only compare the
resulting Job names, so a constant suffices. -/
def demoHash : DBUpgradeSpec → String := fun _ => "aaaaaaaa"

/-- A completed migration Job whose name carries the demo fingerprint. -/
def demoDoneJob : Job :=
  { name := "dbupgrade-demo-aaaaaaaa", active := 0
    conditions := [⟨"Complete", "True"⟩], completionTime := some 100 }

/-- A tick environment where the customer secret resolves and the completed
Job is found. -/
def demoEnv : ReconcileEnv :=
  { secretKeys := some ["url"], existingJob := some demoDoneJob, now := 150 }

/-- A tick environment with every call succeeding and no Job present. -/
def defaultEnv : ReconcileEnv := {}

/-- A record carrying a Progressing=True condition (a running migration). -/
def progressingUpgrade : DBUpgrade :=
  { demoUpgrade with
    status := { observedGeneration := 2, jobCompletedAt := none
                conditions := [⟨"Progressing", "True", "MigrationInProgress",
                  "Database migration is in progress", 2, 10⟩] } }

/-- The progressing record with only the migration image edited. -/
def progressingEditedUpgrade : DBUpgrade :=
  { progressingUpgrade with
    spec := { selfHostedSpec with migrations := ⟨"customer/migr:v2", "/migrations"⟩ } }

/-- A complete aws bundle. -/
def demoAWS : AWSSpec :=
  { roleArn := "arn:aws:iam::123456789012:role/mig", region := "us-east-1"
    host := "db.example.com", port := 5432, dbName := "app", username := "mig" }

/-- An awsRds record whose connection block is present but degenerate: the
ConnectionSpec exists while its urlSecretRef pointer is nil. -/
def degenerateConnUpgrade : DBUpgrade :=
  { name := "aws-demo", generation := 1
    spec := { migrations := ⟨"m:v1", "/migrations"⟩
              database := { type := .awsRds, connection := some none, aws := some demoAWS }
              checks := none, runner := none }
    status := { observedGeneration := 0, jobCompletedAt := none, conditions := [] } }

/-- The same record with the connection block removed entirely. -/
def droppedConnUpgrade : DBUpgrade :=
  { degenerateConnUpgrade with
    spec := { degenerateConnUpgrade.spec with
              database := { degenerateConnUpgrade.spec.database with connection := none } } }

/-- The selfHosted record with only the migration image edited (database
untouched). -/
def imageEditedUpgrade : DBUpgrade :=
  { demoUpgrade with
    spec := { selfHostedSpec with migrations := ⟨"customer/migr:v2", "/migrations"⟩ } }

/-- The pod version precheck of the boundary scenario: strictMode false. -/
def lenientCheck : MinPodVersionCheck :=
  { selector := [("app", "svc")], minVersion := "1.25.0", containerName := ""
    strictMode := some false, disallowDowngrade := false }

/-- Two pods: one at the minimum version, one with a non-semver tag. -/
def mixedPods : List Pod :=
  [ { name := "pod-a", ns := "default", containers := [⟨"main", "nginx:1.25.0"⟩], initContainers := [] }
  , { name := "pod-b", ns := "default", containers := [⟨"main", "nginx:alpine"⟩], initContainers := [] } ]

/-- The outcome of the first reconcile of the demo record. -/
def firstTickResult : reconcileResult :=
  (reconcileDBUpgrade demoHash demoUpgrade demoEnv).1

/-- The status stored by the first status write. -/
def firstTickStatus : DBUpgradeStatus :=
  (updateStatus demoUpgrade firstTickResult 200).1

/-- The demo record as the second tick reads it back. -/
def secondTickUpgrade : DBUpgrade :=
  { demoUpgrade with status := firstTickStatus }

/-- The outcome of the second reconcile: no external change happened. -/
def secondTickResult : reconcileResult :=
  (reconcileDBUpgrade demoHash secondTickUpgrade demoEnv).1

/-- An awsRds record with no aws bundle but with a fallback connection
secret reference. -/
def fallbackOnlyUpgrade : DBUpgrade :=
  { name := "aws-fb", generation := 1
    spec := { migrations := ⟨"m:v1", "/migrations"⟩
              database := { type := .awsRds, connection := some (some ⟨"db-secret", "url"⟩), aws := none }
              checks := none, runner := none }
    status := { observedGeneration := 0, jobCompletedAt := none, conditions := [] } }

/-- A metric check with a Pods target and a non-zero threshold. -/
def dupNamedMetric : MetricCheck :=
  { name := "dup", source := "Custom", metricName := "error_rate"
    target := { type := "Pods", pods := some (), object := none, external := none }
    threshold := { operator := "<", value := 1 }
    reduce := "Max", bakeSeconds := 0, intervalSeconds := 15 }

/-- A selfHosted record whose pre-check metrics carry the same name twice. -/
def duplicateMetricsUpgrade : DBUpgrade :=
  { demoUpgrade with
    spec := { selfHostedSpec with
              checks := some { pre := ⟨[], [dupNamedMetric, dupNamedMetric]⟩, post := ⟨[]⟩ } } }

/-- A stale live Job from a previous fingerprint. -/
def staleLiveJob : Job :=
  { name := "dbupgrade-demo-bbbbbbbb", active := 1, conditions := [], completionTime := none }

/-- A stale finished Job from a previous fingerprint. -/
def staleDoneJob : Job :=
  { name := "dbupgrade-demo-bbbbbbbb", active := 0
    conditions := [⟨"Complete", "True"⟩], completionTime := some 50 }

/-- A post-check metric with a one minute bake window. -/
def bakedMetric : MetricCheck :=
  { name := "p99", source := "Custom", metricName := "latency"
    target := { type := "Pods", pods := some (), object := none, external := none }
    threshold := { operator := "<", value := 5 }
    reduce := "Max", bakeSeconds := 60, intervalSeconds := 15 }

/-- The demo record with the baked post-check metric. -/
def bakedUpgrade : DBUpgrade :=
  { demoUpgrade with
    spec := { selfHostedSpec with checks := some { pre := ⟨[], []⟩, post := ⟨[bakedMetric]⟩ } } }

/-- The demo record with a zero-bake post-check metric. -/
def zeroBakeUpgrade : DBUpgrade :=
  { demoUpgrade with
    spec := { selfHostedSpec with
              checks := some { pre := ⟨[], []⟩, post := ⟨[{ bakedMetric with bakeSeconds := 0 }]⟩ } } }

/-- A metric check carrying an invalid threshold operator. -/
def badOperatorMetric : MetricCheck :=
  { dupNamedMetric with threshold := { operator := "!=", value := 1 } }

/-! ## Helper lemmas -/

/-- firstMetricErr yields no error exactly when every listed metric check
passes individually. -/
theorem firstMetricErr_eq_none (tag : String) (l : List MetricCheck) :
    firstMetricErr tag l = none ↔ ∀ m ∈ l, validateMetricCheck m = none := by
  induction l with
  | nil => simp [firstMetricErr]
  | cons m rest ih => cases h : validateMetricCheck m <;> simp [firstMetricErr, h, ih]

/-- Every element of a list is bounded by the running-maximum fold of
bakeSeconds, and the fold never drops below its seed. -/
theorem maxBake_foldl_le (l : List MetricCheck) (a : Int) :
    a ≤ l.foldl (fun mx c => if c.bakeSeconds > mx then c.bakeSeconds else mx) a
    ∧ ∀ m ∈ l, m.bakeSeconds ≤ l.foldl (fun mx c => if c.bakeSeconds > mx then c.bakeSeconds else mx) a := by
  induction l generalizing a with
  | nil => simp
  | cons c rest ih =>
    have step : a ≤ if c.bakeSeconds > a then c.bakeSeconds else a := by
      split <;> omega
    have hc : c.bakeSeconds ≤ if c.bakeSeconds > a then c.bakeSeconds else a := by
      split <;> omega
    refine ⟨le_trans step (ih _).1, ?_⟩
    intro m hm
    rcases List.mem_cons.1 hm with rfl | hm2
    · exact le_trans hc (ih _).1
    · exact (ih _).2 m hm2

/-- The running-maximum fold of bakeSeconds returns its seed or a listed
value. -/
theorem maxBake_foldl_mem (l : List MetricCheck) (a : Int) :
    l.foldl (fun mx c => if c.bakeSeconds > mx then c.bakeSeconds else mx) a = a
    ∨ ∃ m ∈ l, l.foldl (fun mx c => if c.bakeSeconds > mx then c.bakeSeconds else mx) a = m.bakeSeconds := by
  induction l generalizing a with
  | nil => simp
  | cons c rest ih =>
    rcases ih (if c.bakeSeconds > a then c.bakeSeconds else a) with h | ⟨m, hm, he⟩
    · by_cases hca : c.bakeSeconds > a
      · right
        exact ⟨c, List.mem_cons_self c rest, by simpa [hca] using h⟩
      · left
        simpa [hca] using h
    · right
      exact ⟨m, List.mem_cons_of_mem c hm, he⟩

/-! ## Claim theorems -/

/-- C1: for every update admission request, if the old record has a
Progressing condition with status True and the submitted spec differs from
the old spec, then ValidateUpdate rejects with the migration-in-progress
error; when the submitted spec equals the old spec, the progressing guard
never rejects. -/
theorem C1_progressing_guard (r old : DBUpgrade) :
    (old.status.conditions.any (fun c => c.type == "Progressing" && c.status == "True") = true →
      r.spec ≠ old.spec → ValidateUpdate r old = some progressingRejectionMsg)
    ∧ (r.spec = old.spec → validateNotProgressing r old = none) := by
  constructor
  · intro hprog hneq
    have hneq2 : ¬ (old.spec = r.spec) := fun h => hneq h.symm
    simp [ValidateUpdate, validateNotProgressing, hneq2, hprog]
  · intro heq
    simp [validateNotProgressing, heq]

/-- C1 witness: the rejection fires on a concrete running record with an
edited image, and the guard passes on a spec-identical resubmission. -/
theorem C1_progressing_guard_witness :
    ValidateUpdate progressingEditedUpgrade progressingUpgrade = some progressingRejectionMsg
    ∧ validateNotProgressing progressingUpgrade progressingUpgrade = none :=
  ⟨(C1_progressing_guard progressingEditedUpgrade progressingUpgrade).1 (by decide) (by decide),
   (C1_progressing_guard progressingUpgrade progressingUpgrade).2 rfl⟩

/-- C2 counterexample: the claim says every update that removes the
connection block is rejected, but a record whose ConnectionSpec is present
with a nil urlSecretRef can drop the block without rejection: the
immutability check measures presence as connection together with its
urlSecretRef. -/
theorem C2_counterexample :
    degenerateConnUpgrade.spec.database.connection.isSome = true
    ∧ droppedConnUpgrade.spec.database.connection = none
    ∧ ValidateUpdate droppedConnUpgrade degenerateConnUpgrade = none := by
  refine ⟨rfl, rfl, ?_⟩
  decide

/-- C2 (amended): validateImmutableFields rejects exactly when
database.type changes, the connection-with-urlSecretRef presence changes,
the urlSecretRef name or key changes, the aws block is added or removed, or
an aws field (roleArn, region, host, port, dbName, username) changes; an
update leaving the whole database block unchanged is never rejected by the
immutability check. -/
theorem C2_immutable_fields (r old : DBUpgrade) :
    ((validateImmutableFields r old).isSome ↔
      (r.spec.database.type ≠ old.spec.database.type
        ∨ (old.spec.database.connection.join).isSome ≠ (r.spec.database.connection.join).isSome
        ∨ (∃ oldRef newRef, old.spec.database.connection.join = some oldRef
            ∧ r.spec.database.connection.join = some newRef
            ∧ (oldRef.name ≠ newRef.name ∨ oldRef.key ≠ newRef.key))
        ∨ old.spec.database.aws.isSome ≠ r.spec.database.aws.isSome
        ∨ (∃ oldAWS newAWS, old.spec.database.aws = some oldAWS ∧ r.spec.database.aws = some newAWS
            ∧ (oldAWS.roleArn ≠ newAWS.roleArn ∨ oldAWS.region ≠ newAWS.region
              ∨ oldAWS.host ≠ newAWS.host ∨ oldAWS.port ≠ newAWS.port
              ∨ oldAWS.dbName ≠ newAWS.dbName ∨ oldAWS.username ≠ newAWS.username))))
    ∧ (old.spec.database = r.spec.database → validateImmutableFields r old = none) := by
  constructor
  · unfold validateImmutableFields
    rcases hoc : old.spec.database.connection.join with _ | oldRef <;>
    rcases hnc : r.spec.database.connection.join with _ | newRef <;>
    rcases hoa : old.spec.database.aws with _ | oldAWS <;>
    rcases hna : r.spec.database.aws with _ | newAWS <;>
      simp [hoc, hnc, hoa, hna] <;> split_ifs <;> simp_all
  · intro h
    unfold validateImmutableFields
    rw [h]
    rcases hnc : r.spec.database.connection.join with _ | newRef <;>
    rcases hna : r.spec.database.aws with _ | newAWS <;> simp [hnc, hna]

/-- C2 witness: an image-only edit passes the immutability check. -/
theorem C2_immutable_fields_witness :
    validateImmutableFields imageEditedUpgrade demoUpgrade = none :=
  (C2_immutable_fields imageEditedUpgrade demoUpgrade).2 rfl

/-- C6 counterexample: a spec whose pre-check metrics carry the same name
twice passes the admission validator, which never checks name uniqueness. -/
theorem C6_counterexample :
    (match duplicateMetricsUpgrade.spec.checks with
     | some c => c.pre.metrics.map (fun m => m.name)
     | none => []) = ["dup", "dup"]
    ∧ ValidateCreate duplicateMetricsUpgrade = none := by
  refine ⟨rfl, ?_⟩
  decide

/-- C6 (amended): the admission validator checks every metric individually
(target binding matching the target type and a non-zero threshold) and
accepts a metric list exactly when each entry passes; duplicate names within
pre or post metrics are not rejected (uniqueness is delegated to the
list-map schema of the CRD). -/
theorem C6_validateMetrics_elementwise (c : ChecksSpec) :
    validateMetrics c = none ↔
      ∀ m ∈ c.pre.metrics ++ c.post.metrics, validateMetricCheck m = none := by
  constructor
  · intro h
    cases hp : firstMetricErr "pre-check" c.pre.metrics with
    | some e => simp [validateMetrics, hp] at h
    | none =>
      have hpre := (firstMetricErr_eq_none "pre-check" c.pre.metrics).1 hp
      have hpost : firstMetricErr "post-check" c.post.metrics = none := by
        simpa [validateMetrics, hp] using h
      have hpost2 := (firstMetricErr_eq_none "post-check" c.post.metrics).1 hpost
      intro m hm
      rcases List.mem_append.1 hm with h1 | h1
      · exact hpre m h1
      · exact hpost2 m h1
  · intro h
    have hpre : firstMetricErr "pre-check" c.pre.metrics = none :=
      (firstMetricErr_eq_none "pre-check" c.pre.metrics).2
        (fun m hm => h m (List.mem_append.2 (Or.inl hm)))
    have hpost : firstMetricErr "post-check" c.post.metrics = none :=
      (firstMetricErr_eq_none "post-check" c.post.metrics).2
        (fun m hm => h m (List.mem_append.2 (Or.inr hm)))
    simp [validateMetrics, hpre, hpost]

/-- C3: with strictMode=false the claim expects the non-semver pod to be
skipped so that the gate passes on the remaining parseable pod, but the
checker records every non-semver pod as failed, never consults strictMode,
and the gate fails: the documented lenient mode is not implemented. -/
theorem C3_strictmode_not_consulted :
    checkSinglePodVersion mixedPods lenientCheck =
      .ok { passed := false
            message := "1 pod(s) have version below minimum 1.25.0"
            failedPods := [⟨"pod-b", "default", "main", "nginx:alpine", "unknown"⟩] }
    ∧ (∀ b : Option Bool,
        checkSinglePodVersion mixedPods { lenientCheck with strictMode := b }
          = checkSinglePodVersion mixedPods lenientCheck) := by
  constructor
  · rfl
  · intro b
    rfl

/-- C4 counterexample: after a successful first tick the second tick
recomputes a status that deep-equals the stored one, yet updateStatus still
issues the status update call: no deep-equal suppression exists. -/
theorem C4_counterexample :
    (updateStatus secondTickUpgrade secondTickResult 201).1 = secondTickUpgrade.status
    ∧ (updateStatus secondTickUpgrade secondTickResult 201).2 = true := by
  constructor
  · decide
  · rfl

/-- C4 (amended): updateStatus issues the status update call on every
reconcile, unconditionally; identical recomputed statuses are not
suppressed. -/
theorem C4_updateStatus_always_writes (db : DBUpgrade) (result : reconcileResult) (now : Int) :
    (updateStatus db result now).2 = true := rfl

/-- C5 counterexample: an awsRds record with no aws bundle but with a
fallback connection secret reference does not proceed past the cloud
configuration check; reconciliation returns the blocked outcome and creates
no worker. -/
theorem C5_counterexample :
    fallbackOnlyUpgrade.spec.database.connection.join.isSome = true
    ∧ fallbackOnlyUpgrade.spec.database.aws = none
    ∧ reconcileDBUpgrade demoHash fallbackOnlyUpgrade defaultEnv = (awsConfigMissingResult, [])
    ∧ awsConfigMissingResult.ready = false
    ∧ awsConfigMissingResult.progressing = false
    ∧ awsConfigMissingResult.readyReason = ReasonAWSNotSupported := by
  refine ⟨rfl, rfl, ?_, rfl, rfl, rfl⟩
  decide

/-- C5 (amended): for every awsRds or awsAurora record without an aws
bundle, reconciliation returns Ready=False, Progressing=False with the
cloud-configuration-missing reason (AWSNotSupported) and creates no worker,
whether or not a fallback connection secret is present: the fallback secret
does not bypass this check. -/
theorem C5_aws_config_required (hash : DBUpgradeSpec → String) (db : DBUpgrade)
    (env : ReconcileEnv)
    (htype : db.spec.database.type = .awsRds ∨ db.spec.database.type = .awsAurora)
    (haws : db.spec.database.aws = none) :
    reconcileDBUpgrade hash db env = (awsConfigMissingResult, []) := by
  have hns : db.spec.database.type ≠ .selfHosted := by
    rcases htype with h | h <;> simp [h]
  unfold reconcileDBUpgrade
  simp [hns, htype, haws]

/-- C5 witness: the blocked outcome at the concrete fallback-only record. -/
theorem C5_aws_config_required_witness :
    reconcileDBUpgrade demoHash fallbackOnlyUpgrade defaultEnv = (awsConfigMissingResult, []) :=
  C5_aws_config_required demoHash fallbackOnlyUpgrade defaultEnv (Or.inl rfl) rfl

/-- C7: when the existing Job name differs from the fingerprint-derived
expected name, a live Job (active pods) is left untouched with
Ready=False, Progressing=True, reason MigrationInProgress and a 10 second
requeue, while a non-live Job is deleted with background propagation,
returning Ready=False, Progressing=False, reason Initializing, a 2 second
requeue and the Normal SpecChanged event. -/
theorem C7_spec_change_handling (hash : DBUpgradeSpec → String) (db : DBUpgrade)
    (env : ReconcileEnv) (j : Job)
    (hjob : env.existingJob = some j)
    (hsec : db.spec.database.type = .selfHosted → validateSecret db env = none)
    (haws : db.spec.database.type = .awsRds ∨ db.spec.database.type = .awsAurora →
      db.spec.database.aws.isSome = true)
    (hens : env.ensureSecretErr = none)
    (hget : env.getJobErr = none)
    (hname : j.name ≠ "dbupgrade-" ++ db.name ++ "-" ++ hash db.spec) :
    (j.active > 0 →
      reconcileDBUpgrade hash db env = (migrationRunningWaitResult, [])
        ∧ migrationRunningWaitResult.ready = false
        ∧ migrationRunningWaitResult.progressing = true
        ∧ migrationRunningWaitResult.progressReason = ReasonMigrationInProgress
        ∧ migrationRunningWaitResult.requeueAfter = 10)
    ∧ (¬ j.active > 0 → env.deleteJobErr = false →
      reconcileDBUpgrade hash db env = (specChangedResult, [.deleteJobBackground j.name])
        ∧ specChangedResult.ready = false
        ∧ specChangedResult.progressing = false
        ∧ specChangedResult.progressReason = ReasonInitializing
        ∧ specChangedResult.requeueAfter = 2
        ∧ specChangedResult.event = some ⟨"Normal", "SpecChanged", "Spec changed, starting new migration"⟩) := by
  have h1 : (if db.spec.database.type = .selfHosted then validateSecret db env else none) = none := by
    by_cases h : db.spec.database.type = .selfHosted
    · simp [h, hsec h]
    · simp [h]
  have h2 : ¬ ((db.spec.database.type = .awsRds ∨ db.spec.database.type = .awsAurora)
      ∧ db.spec.database.aws = none) := by
    rintro ⟨hd, hn⟩
    have := haws hd
    simp [hn] at this
  constructor
  · intro hact
    refine ⟨?_, rfl, rfl, rfl, rfl⟩
    unfold reconcileDBUpgrade
    simp [h1, h2, hens, hget, hjob, hname, isJobRunning, hact]
  · intro hact hdel
    refine ⟨?_, rfl, rfl, rfl, rfl, rfl⟩
    unfold reconcileDBUpgrade
    simp [h1, h2, hens, hget, hjob, hname, isJobRunning, hact, hdel]

/-- C7 witness: both branches at the concrete demo record, with a stale
live Job and a stale finished Job. -/
theorem C7_spec_change_handling_witness :
    reconcileDBUpgrade demoHash demoUpgrade { demoEnv with existingJob := some staleLiveJob }
      = (migrationRunningWaitResult, [])
    ∧ reconcileDBUpgrade demoHash demoUpgrade { demoEnv with existingJob := some staleDoneJob }
      = (specChangedResult, [.deleteJobBackground "dbupgrade-demo-bbbbbbbb"]) :=
  ⟨((C7_spec_change_handling demoHash demoUpgrade
      { demoEnv with existingJob := some staleLiveJob } staleLiveJob
      rfl (fun _ => rfl) (by decide) rfl rfl (by decide)).1
      (by decide)).1,
   (((C7_spec_change_handling demoHash demoUpgrade
      { demoEnv with existingJob := some staleDoneJob } staleDoneJob
      rfl (fun _ => rfl) (by decide) rfl rfl (by decide)).2
      (by decide)) rfl).1⟩

/-- C8: on a succeeded worker with post metric checks, the completion
timestamp is the Job completion time if present, else the status value,
else the current moment; the bake bound is the maximum bakeSeconds of the
post checks; while elapsed time is below it, the reconciler returns
Ready=False, Progressing=True with reason PostCheckBakeTimeWaiting, a
requeue of the remaining seconds and the completion timestamp preserved in
status; a zero bake bound runs the post metric evaluation immediately. -/
theorem C8_bake_window (db : DBUpgrade) (j : Job) (env : ReconcileEnv)
    (hsucc : isJobSucceeded (some j) = true)
    (hpost : hasPostMetrics db = true)
    (hrest : env.restConfig = true)
    (ht : jobCompletedAtOf db j env ≤ env.now) :
    (∀ m ∈ postMetricsList db, m.bakeSeconds ≤ maxBakeSeconds db)
    ∧ (maxBakeSeconds db = 0 ∨ ∃ m ∈ postMetricsList db, maxBakeSeconds db = m.bakeSeconds)
    ∧ (env.now - jobCompletedAtOf db j env < maxBakeSeconds db →
        syncJobStatus db (some j) env =
          { bakeWaitingResult (env.now - jobCompletedAtOf db j env) (maxBakeSeconds db) with
              jobCompletedAt := some (jobCompletedAtOf db j env) }
          ∧ (bakeWaitingResult (env.now - jobCompletedAtOf db j env) (maxBakeSeconds db)).ready = false
          ∧ (bakeWaitingResult (env.now - jobCompletedAtOf db j env) (maxBakeSeconds db)).progressing = true
          ∧ (bakeWaitingResult (env.now - jobCompletedAtOf db j env) (maxBakeSeconds db)).progressReason
              = ReasonPostCheckBakeTimeWaiting
          ∧ (bakeWaitingResult (env.now - jobCompletedAtOf db j env) (maxBakeSeconds db)).requeueAfter
              = maxBakeSeconds db - (env.now - jobCompletedAtOf db j env))
    ∧ (maxBakeSeconds db = 0 →
        runPostChecks db (some (jobCompletedAtOf db j env)) env = postMetricEval env) := by
  refine ⟨(maxBake_foldl_le (postMetricsList db) 0).2, ?_, ?_, ?_⟩
  · rcases maxBake_foldl_mem (postMetricsList db) 0 with h | ⟨m, hm, he⟩
    · exact Or.inl h
    · exact Or.inr ⟨m, hm, he⟩
  · intro helapsed
    have hmx : maxBakeSeconds db > 0 := by omega
    have hrun : runPostChecks db (some (jobCompletedAtOf db j env)) env =
        bakeWaitingResult (env.now - jobCompletedAtOf db j env) (maxBakeSeconds db) := by
      unfold runPostChecks
      simp [hpost, hrest, hmx, helapsed]
    refine ⟨?_, rfl, rfl, rfl, rfl⟩
    unfold syncJobStatus
    simp [hsucc, hrun, hpost, bakeWaitingResult]
  · intro hmx
    unfold runPostChecks
    simp [hpost, hrest, hmx]

/-- C8 witness: at the concrete baked record the wait outcome fires 20
seconds after completion with a 40 second requeue, and the zero-bake record
evaluates its post metrics immediately. -/
theorem C8_bake_window_witness :
    syncJobStatus bakedUpgrade (some demoDoneJob) { demoEnv with now := 120 }
      = { bakeWaitingResult 20 60 with jobCompletedAt := some 100 }
    ∧ runPostChecks zeroBakeUpgrade (some 100) { demoEnv with now := 120 }
      = postMetricEval { demoEnv with now := 120 } :=
  ⟨((C8_bake_window bakedUpgrade demoDoneJob { demoEnv with now := 120 }
      rfl rfl rfl (by decide)).2.2.1 (by decide)).1,
   (C8_bake_window zeroBakeUpgrade demoDoneJob { demoEnv with now := 120 }
      rfl rfl rfl (by decide)).2.2.2 rfl⟩

/-- C9 counterexample: the claim says step 4 returns the captured version,
but on a tag with a leading v the code returns the full regex match
(matches at index 0), keeping the v. -/
theorem C9_counterexample :
    extractVersionFromImage "app:v1.2.3" = "v1.2.3"
    ∧ tagPolicyCaptured "app:v1.2.3" = "1.2.3"
    ∧ ("v1.2.3" : String) ≠ "1.2.3" := by
  refine ⟨rfl, rfl, ?_⟩
  decide

/-- C9 (amended): extractVersionFromImage implements the five-step tag
parsing policy with step 4 returning the full regex match including any
leading v: strip the digest, take the tag after the last colon following
the last slash (empty when absent), reject latest and empty tags, return
the regex match when it applies, else the tag verbatim when it begins with
a digit, else empty. -/
theorem C9_tag_policy (image : String) :
    extractVersionFromImage image = tagPolicy image := by
  unfold extractVersionFromImage tagPolicy stripDigest tagAfterColon tagPolicySteps
  rcases hsd : splitFirstChar '@' image with _ | ⟨before, after⟩ <;>
    simp only [hsd] <;> split <;> rfl

/-- C10: reduceValues and compareThreshold are total with safe defaults:
the empty value list reduces to 0, an empty or unrecognized reduce function
behaves as Max, and an unrecognized threshold operator compares to false,
so a metric check carrying an invalid operator never passes. -/
theorem C10_reduce_threshold_defaults (values : List Rat) (check : MetricCheck) (r : String)
    (hr : r ∉ (["Min", "Sum", "Avg"] : List String))
    (hop : check.threshold.operator ∉ ([">", ">=", "<", "<="] : List String)) :
    reduceValues [] r = 0
    ∧ reduceValues values r = reduceValues values "Max"
    ∧ (∀ v t : Rat, compareThreshold v t check.threshold.operator = false)
    ∧ (checkSingleMetricResult check values).passed = false := by
  have h1 : r ≠ "Min" := by rintro rfl; simp at hr
  have h2 : r ≠ "Sum" := by rintro rfl; simp at hr
  have h3 : r ≠ "Avg" := by rintro rfl; simp at hr
  have o1 : check.threshold.operator ≠ ">" := by intro h; rw [h] at hop; simp at hop
  have o2 : check.threshold.operator ≠ ">=" := by intro h; rw [h] at hop; simp at hop
  have o3 : check.threshold.operator ≠ "<" := by intro h; rw [h] at hop; simp at hop
  have o4 : check.threshold.operator ≠ "<=" := by intro h; rw [h] at hop; simp at hop
  have hcmp : ∀ v t : Rat, compareThreshold v t check.threshold.operator = false := by
    intro v t
    simp [compareThreshold, o1, o2, o3, o4]
  refine ⟨rfl, ?_, hcmp, ?_⟩
  · cases values with
    | nil => rfl
    | cons v vs => simp [reduceValues, h1, h2, h3]
  · cases hv : values with
    | nil => rfl
    | cons v vs =>
      unfold checkSingleMetricResult
      simp [hcmp]

/-- C10 witness: the defaults at concrete values and a concrete check
carrying an invalid operator. -/
theorem C10_reduce_threshold_defaults_witness :
    reduceValues [] "" = 0
    ∧ reduceValues [(3 : Rat), 7] "" = reduceValues [(3 : Rat), 7] "Max"
    ∧ (∀ v t : Rat, compareThreshold v t badOperatorMetric.threshold.operator = false)
    ∧ (checkSingleMetricResult badOperatorMetric [(3 : Rat), 7]).passed = false :=
  C10_reduce_threshold_defaults [(3 : Rat), 7] badOperatorMetric "" (by decide) (by decide)

end DBU
